import Mathlib

/-!
Verification of the Music-ConnectZ identity and credential-recovery core
(`src/server.js`): user store, password login, registration, OAuth provider
resolution, and the password-reset code lifecycle.  The JavaScript handlers
are embedded shallowly as pure Lean functions over an explicit store state
(`List User`); external collaborators (bcrypt, `Date.now()`, `Math.random()`,
`crypto.randomUUID()`, the filesystem) are passed in as explicit parameters
or modelled by their documented contracts.
-/

namespace MusicConnectZ

/-- Model of a bcrypt digest (external library `bcryptjs`).  The digest is
opaque to the server code; the only contract used is that
`bcrypt.compare(p, bcrypt.hash(p, r))` succeeds and comparison against a
digest of a different plaintext fails.  We model the digest as remembering
the hashed plaintext and the work factor. -/
structure BHash where
  pw : String
  rounds : Nat
deriving DecidableEq, Repr

/-- Model of `bcrypt.hash(plaintext, rounds)`. -/
def bcryptHash (p : String) (rounds : Nat) : BHash := ⟨p, rounds⟩

/-- Model of `bcrypt.compare(plaintext, digest)`. -/
def bcryptCompare (p : String) (h : BHash) : Bool := h.pw == p

/-- A user record as stored in `users.json`.  Fields that a JavaScript
record may lack (`phone`, `passwordHash`, provider ids, reset fields) are
`Option`s; `none` is an absent property. -/
structure User where
  id : String
  email : String
  username : String
  phone : Option String
  passwordHash : Option BHash
  googleId : Option String
  facebookId : Option String
  githubId : Option String
  resetCode : Option String
  resetExpiry : Option Nat
  createdAt : String
deriving DecidableEq, Repr

/-- Model of `String.prototype.trim()`: strip whitespace from both ends. -/
def jsTrim (s : String) : String :=
  String.mk (((s.data.dropWhile Char.isWhitespace).reverse.dropWhile
    Char.isWhitespace).reverse)

/-- Model of `String.prototype.toLowerCase()`: lower-case each character. -/
def jsToLower (s : String) : String := String.mk (s.data.map Char.toLower)

/-- The function `normalizeEmail` (server.js line 168): trim then lower-case. -/
def normalizeEmail (e : String) : String := jsToLower (jsTrim e)

/-- Normalization `normalizeEmail(String(email || ''))` applied to a possibly absent
request-body field. -/
def normalizeEmailOpt (e : Option String) : String := normalizeEmail (e.getD "")

/-- JavaScript truthiness of a possibly absent string field:
falsy iff absent or the empty string. -/
def truthyStr (s : Option String) : Bool := s.getD "" != ""

/-- JavaScript truthiness of a possibly absent numeric field:
falsy iff absent or zero. -/
def truthyNat (n : Option Nat) : Bool := n.getD 0 != 0

/-- JSON values appearing in the core's response bodies.  The only nested
object ever sent is the user summary, whose fields are all strings, so the
object case carries string values. -/
inductive JVal
| jbool (b : Bool)
| jstr (s : String)
| jobj (fields : List (String × String))
deriving DecidableEq, Repr

/-- A response: HTTP status code and JSON body as an ordered field list. -/
abbrev Response := Nat × List (String × JVal)

/-- Replace the first element satisfying `p` by its image under `f`;
models the JavaScript pattern of `users.find(...)` followed by in-place
mutation of the found record inside the array. -/
def updateFirst {α : Type} (p : α → Bool) (f : α → α) : List α → List α
| [] => []
| a :: as => if p a then f a :: as else a :: updateFirst p f as

/-! ## Credential store (`readUsers`, server.js lines 151-162) -/

/-- Outcome of the `fs.readFile` + `JSON.parse` attempt inside `readUsers`:
either the read itself rejected with an error carrying an optional `code`
property, or it succeeded and `JSON.parse` produced an array, produced a
non-array value, or threw (a `SyntaxError`, which has no `code`). -/
inductive ReadAttempt
| fsError (code : Option String)
| parsedArr (us : List User)
| parsedOther
| parseFail
deriving DecidableEq, Repr

/-- Errors surfaced by the store. -/
inductive StoreErr
| ioErr (code : Option String)
| parseErr
deriving DecidableEq, Repr

/-- The function `readUsers`: a rejected read whose `error.code === 'ENOENT'` means "no
storage yet" and yields the empty collection; any other failure is
rethrown; a parsed non-array yields `[]`. -/
def readUsers : ReadAttempt → Except StoreErr (List User)
| .fsError c => if c == some "ENOENT" then .ok [] else .error (.ioErr c)
| .parsedArr us => .ok us
| .parsedOther => .ok []
| .parseFail => .error .parseErr

/-! ## Password login (`POST /api/login`, server.js lines 178-203) -/

/-- The `/api/login` handler.  `bcrypt.compare` against an absent
`passwordHash` rejects inside `bcryptjs` (non-string hash), which the
handler's `catch` converts to a 500 response. -/
def login (st : List User) (email password : Option String) : Response :=
  let ne := normalizeEmailOpt email
  let pw := password.getD ""
  if ne == "" || pw == "" then
    (400, [("error", .jstr "Email and password required")])
  else
    match st.find? (fun u => u.email == ne) with
    | none => (401, [("error", .jstr "Invalid credentials")])
    | some u =>
      match u.passwordHash with
      | none => (500, [("error", .jstr "Internal server error")])
      | some h =>
        if bcryptCompare pw h then
          (200, [("ok", .jbool true),
                 ("user", .jobj [("id", u.id), ("email", u.email),
                                 ("username", u.username)])])
        else (401, [("error", .jstr "Invalid credentials")])

/-! ## Registration (`POST /api/register`, server.js lines 312-348) -/

/-- The `/api/register` handler.  `freshId` models `crypto.randomUUID()`
and `nowIso` models `new Date().toISOString()`. -/
def register (st : List User) (email password username phone : Option String)
    (freshId nowIso : String) : Response × List User :=
  let ne := normalizeEmailOpt email
  if ne == "" then ((400, [("error", .jstr "Email required")]), st)
  else
    let pw := password.getD ""
    if pw == "" || pw.length < 8 then
      ((400, [("error", .jstr "Password must be at least 8 characters")]), st)
    else
      match st.find? (fun u => u.email == ne) with
      | some _ => ((409, [("error", .jstr "Email already registered")]), st)
      | none =>
        let un := if truthyStr username then (username.getD "").trim else ""
        let ph := if truthyStr phone then (phone.getD "").trim else ""
        let nu : User :=
          { id := freshId, email := ne, username := un, phone := some ph,
            passwordHash := some (bcryptHash pw 12),
            googleId := none, facebookId := none, githubId := none,
            resetCode := none, resetExpiry := none, createdAt := nowIso }
        ((201, [("ok", .jbool true),
                ("user", .jobj [("id", freshId), ("email", ne),
                                ("username", un), ("phone", ph)])]),
         st ++ [nu])

/-! ## Forgot password (`POST /api/forgot-password`, server.js lines 234-267) -/

/-- Model of `Math.floor(100000 + Math.random() * 900000)`.  `Math.random()` is
modelled as an arbitrary rational `r` with `0 ≤ r < 1`; the floor is taken
over ℚ. -/
def genResetCode (r : ℚ) : Nat := (Rat.floor (100000 + r * 900000)).toNat

/-- Little-endian decimal digits of `n`, with explicit fuel so that the
recursion is structural. -/
def decDigitsAux : Nat → Nat → List Nat
| 0, _ => []
| _ + 1, 0 => []
| fuel + 1, n + 1 => (n + 1) % 10 :: decDigitsAux fuel ((n + 1) / 10)

/-- Little-endian decimal digits of `n` (`n` itself is enough fuel). -/
def decDigits (n : Nat) : List Nat := decDigitsAux n n

/-- Model of `Number.prototype.toString()` for a positive integer: its decimal digit
string, most significant digit first. -/
def natToDecString (n : Nat) : String :=
  String.mk ((decDigits n).reverse.map (fun d => Char.ofNat (48 + d)))

/-- The `/api/forgot-password` handler.  `now` models `Date.now()` in
milliseconds and `r` models `Math.random()`.  On a match the generated code
and an expiry 15 minutes ahead are stored on the found record and the
collection is persisted; note that the success response for an existing
account additionally carries the `resetCode` field (server.js line 262). -/
def forgotPassword (st : List User) (email : Option String) (now : Nat)
    (r : ℚ) : Response × List User :=
  let ne := normalizeEmailOpt email
  if ne == "" then ((400, [("error", .jstr "Email required")]), st)
  else
    match st.find? (fun u => u.email == ne) with
    | none =>
      ((200, [("ok", .jbool true),
              ("message", .jstr "If account exists, reset code sent")]), st)
    | some _ =>
      let code := natToDecString (genResetCode r)
      let expiry := now + 15 * 60 * 1000
      let st' := updateFirst (fun u => u.email == ne)
        (fun u => { u with resetCode := some code, resetExpiry := some expiry }) st
      ((200, [("ok", .jbool true),
              ("message", .jstr "If account exists, reset code sent"),
              ("resetCode", .jstr code)]), st')

/-! ## Reset password (`POST /api/reset-password`, server.js lines 270-309) -/

/-- The `/api/reset-password` handler.  The `!user.resetCode` and
`!user.resetExpiry` truthiness tests, the strict `Date.now() > resetExpiry`
comparison and the strict string comparison `user.resetCode !== String(code)`
are reproduced; on success the new password is hashed, the reset fields are
deleted and the collection is persisted. -/
def resetPassword (st : List User) (email code newPassword : Option String)
    (now : Nat) : Response × List User :=
  let ne := normalizeEmailOpt email
  let c := code.getD ""
  let np := newPassword.getD ""
  if ne == "" || c == "" || np == "" then
    ((400, [("error", .jstr "Email, code, and new password required")]), st)
  else if np.length < 8 then
    ((400, [("error", .jstr "Password must be at least 8 characters")]), st)
  else
    match st.find? (fun u => u.email == ne) with
    | none => ((400, [("error", .jstr "Invalid or expired reset code")]), st)
    | some u =>
      if !truthyStr u.resetCode || !truthyNat u.resetExpiry then
        ((400, [("error", .jstr "Invalid or expired reset code")]), st)
      else if decide (now > u.resetExpiry.getD 0) then
        ((400, [("error", .jstr "Reset code expired")]), st)
      else if u.resetCode.getD "" != c then
        ((400, [("error", .jstr "Invalid reset code")]), st)
      else
        let st' := updateFirst (fun v => v.email == ne)
          (fun v => { v with passwordHash := some (bcryptHash np 12),
                             resetCode := none, resetExpiry := none }) st
        ((200, [("ok", .jbool true),
                ("message", .jstr "Password reset successful")]), st')

/-! ## OAuth provider resolution (server.js lines 51-149)

The three passport verify callbacks (Google lines 56-81, Facebook lines
90-115, GitHub lines 123-148) share one structure and differ only in which
linkage field they read/write and how the display name is derived; they are
embedded as one function parametrised over the provider. -/

inductive Provider
| google
| facebook
| github
deriving DecidableEq, Repr

/-- A verified OAuth profile as consumed by the callbacks: `id`,
`emails` (the callbacks read `profile.emails?.[0]?.value`), and the
name-related fields each provider may carry. -/
structure OAuthProfile where
  id : String
  emails : List String
  displayName : Option String
  givenName : Option String
  familyName : Option String
  username : Option String
deriving DecidableEq, Repr

/-- The linkage field read by the provider's callback
(`u.googleId` / `u.facebookId` / `u.githubId`). -/
def getProviderId : Provider → User → Option String
| .google, u => u.googleId
| .facebook, u => u.facebookId
| .github, u => u.githubId

/-- Writing the provider's linkage field. -/
def setProviderId : Provider → String → User → User
| .google, pid, u => { u with googleId := some pid }
| .facebook, pid, u => { u with facebookId := some pid }
| .github, pid, u => { u with githubId := some pid }

/-- The display name each callback gives a newly created record:
Google `profile.displayName || ''`; Facebook
``` `${givenName || ''} ${familyName || ''}`.trim() ```; GitHub
`profile.username || profile.displayName || ''`. -/
def profileUsername : Provider → OAuthProfile → String
| .google, p => p.displayName.getD ""
| .facebook, p => ((p.givenName.getD "") ++ " " ++ (p.familyName.getD "")).trim
| .github, p =>
  let un := p.username.getD ""
  if un != "" then un else p.displayName.getD ""

/-- The candidate email `normalizeEmail(profile.emails?.[0]?.value || '')`. -/
def candidateEmail (p : OAuthProfile) : String :=
  normalizeEmail (p.emails.head?.getD "")

/-- The lookup predicate
`u.email === email || u.<provider>Id === profile.id`. -/
def provFindPred (prov : Provider) (p : OAuthProfile) (u : User) : Bool :=
  u.email == candidateEmail p || getProviderId prov u == some p.id

/-- The verify callback: find by email-or-provider-id; if absent create a
new linked record and persist; if present but unlinked, link and persist;
otherwise no write.  Returns the resolved user, the resulting store, and
whether `writeUsers` was called. -/
def resolveProvider (prov : Provider) (st : List User) (p : OAuthProfile)
    (freshId nowIso : String) : User × List User × Bool :=
  match st.find? (provFindPred prov p) with
  | none =>
    let nu := setProviderId prov p.id
      { id := freshId, email := candidateEmail p,
        username := profileUsername prov p, phone := none,
        passwordHash := none, googleId := none, facebookId := none,
        githubId := none, resetCode := none, resetExpiry := none,
        createdAt := nowIso }
    (nu, st ++ [nu], true)
  | some u =>
    if !truthyStr (getProviderId prov u) then
      (setProviderId prov p.id u,
       updateFirst (provFindPred prov p) (setProviderId prov p.id) st, true)
    else (u, st, false)

/-- The user id carried inside a response's "user" object, if any;
used to compare the identity returned by different endpoints. -/
def respUserId (r : Response) : Option String :=
  (r.2.lookup "user").bind fun v =>
    match v with
    | .jobj fs => fs.lookup "id"
    | _ => none

/-! ## Store invariants -/

/-- At most one record per non-empty normalized email. -/
def EmailUnique (st : List User) : Prop :=
  ∀ e : String, e ≠ "" → st.countP (fun u => u.email == e) ≤ 1

/-- Each provider linkage value maps to at most one record. -/
def ProviderUnique (st : List User) : Prop :=
  ∀ (prov : Provider) (pid : String),
    st.countP (fun u => getProviderId prov u == some pid) ≤ 1

/-! ## Helper lemmas -/

theorem ratFloor_eq_intFloor (q : ℚ) : Rat.floor q = ⌊q⌋ := by
  rw [Rat.floor_def, Rat.floor_def']

theorem genResetCode_half : genResetCode (1 / 2) = 550000 := by
  rw [genResetCode, ratFloor_eq_intFloor]
  norm_num
  decide

theorem setProviderId_email (prov : Provider) (pid : String) (u : User) :
    (setProviderId prov pid u).email = u.email := by
  cases prov <;> rfl

theorem setProviderId_id (prov : Provider) (pid : String) (u : User) :
    (setProviderId prov pid u).id = u.id := by
  cases prov <;> rfl

theorem getProviderId_set_self (prov : Provider) (pid : String) (u : User) :
    getProviderId prov (setProviderId prov pid u) = some pid := by
  cases prov <;> rfl

theorem getProviderId_set_ne {prov prov' : Provider} (h : prov ≠ prov')
    (pid : String) (u : User) :
    getProviderId prov' (setProviderId prov pid u) = getProviderId prov' u := by
  cases prov <;> cases prov' <;> first | rfl | exact absurd rfl h

theorem length_updateFirst {α : Type} (p : α → Bool) (f : α → α) :
    ∀ l : List α, (updateFirst p f l).length = l.length
  | [] => rfl
  | a :: as => by
    by_cases h : p a
    · simp [updateFirst, h]
    · simp [updateFirst, h, length_updateFirst p f as]

theorem updateFirst_of_find?_none {α : Type} {p : α → Bool} (f : α → α) :
    ∀ {l : List α}, l.find? p = none → updateFirst p f l = l
  | [], _ => rfl
  | a :: as, h => by
    rw [List.find?_cons] at h
    by_cases ha : p a
    · simp [ha] at h
    · simp only [ha] at h
      simp [updateFirst, ha, updateFirst_of_find?_none f h]

theorem find?_updateFirst {α : Type} {p : α → Bool} {f : α → α} {u : α} :
    ∀ {l : List α}, l.find? p = some u → p (f u) = true →
      (updateFirst p f l).find? p = some (f u)
  | [], h, _ => by simp at h
  | a :: as, h, hfu => by
    rw [List.find?_cons] at h
    by_cases ha : p a
    · simp only [ha] at h
      obtain rfl : a = u := by simpa using h
      simp [updateFirst, ha, List.find?_cons, hfu]
    · simp only [ha] at h
      simp [updateFirst, ha, List.find?_cons, find?_updateFirst h hfu]

theorem countP_updateFirst_eq {α : Type} (p : α → Bool) (f : α → α)
    (q : α → Bool) (hq : ∀ a, q (f a) = q a) :
    ∀ l : List α, (updateFirst p f l).countP q = l.countP q
  | [] => rfl
  | a :: as => by
    by_cases h : p a
    · simp [updateFirst, h, List.countP_cons, hq]
    · simp [updateFirst, h, List.countP_cons,
        countP_updateFirst_eq p f q hq as]

theorem countP_updateFirst_mono {α : Type} (p : α → Bool) (f : α → α)
    (q : α → Bool) (hq : ∀ a, q (f a) = true → q a = true) :
    ∀ l : List α, (updateFirst p f l).countP q ≤ l.countP q
  | [] => le_refl _
  | a :: as => by
    by_cases h : p a
    · have hcnt : (if q (f a) then 1 else 0) ≤ (if q a then 1 else 0) := by
        by_cases hfa : q (f a)
        · simp [hfa, hq a hfa]
        · simp [hfa]
      simp only [updateFirst, h, if_true, List.countP_cons]
      omega
    · have := countP_updateFirst_mono p f q hq as
      simp only [updateFirst, h, Bool.false_eq_true, if_false, List.countP_cons]
      omega

theorem countP_updateFirst_le {α : Type} (p : α → Bool) (f : α → α)
    (q : α → Bool) :
    ∀ l : List α, (updateFirst p f l).countP q ≤ l.countP q + 1
  | [] => by simp [updateFirst]
  | a :: as => by
    by_cases h : p a
    · have hcnt : (if q (f a) then 1 else 0) ≤ 1 := by
        by_cases hfa : q (f a) <;> simp [hfa]
      simp only [updateFirst, h, if_true, List.countP_cons]
      omega
    · have := countP_updateFirst_le p f q as
      simp only [updateFirst, h, Bool.false_eq_true, if_false, List.countP_cons]
      omega

theorem countP_eq_zero_of_find?_none {α : Type} {p : α → Bool} {l : List α}
    (h : l.find? p = none) : l.countP p = 0 := by
  rw [List.countP_eq_zero]
  exact fun a ha => by simpa using List.find?_eq_none.mp h a ha

theorem countP_append_singleton {α : Type} (q : α → Bool) (l : List α) (a : α) :
    (l ++ [a]).countP q = l.countP q + (if q a then 1 else 0) := by
  simp [List.countP_append, List.countP_cons]

theorem emailUnique_append_new {st : List User} {nu : User}
    (h : EmailUnique st)
    (hnew : st.countP (fun u => u.email == nu.email) = 0) :
    EmailUnique (st ++ [nu]) := by
  intro e he
  rw [countP_append_singleton]
  rcases eq_or_ne nu.email e with rfl | hne
  · rw [hnew]
    split <;> omega
  · have hz : (if (fun u => u.email == e) nu then 1 else 0) = 0 := by
      simp [hne]
    rw [hz]
    simpa using h e he

/-- Updates of `resetCode`/`resetExpiry` leave the linkage fields unchanged. -/
theorem getProviderId_set_reset (prov : Provider) (u : User) (c : String)
    (x : Nat) :
    getProviderId prov { u with resetCode := some c, resetExpiry := some x } =
      getProviderId prov u := by
  cases prov <;> rfl

/-- Password update with cleared reset fields leaves linkage unchanged. -/
theorem getProviderId_set_pw (prov : Provider) (u : User) (h : BHash) :
    getProviderId prov { u with
      passwordHash := some h
      resetCode := none
      resetExpiry := none } = getProviderId prov u := by
  cases prov <;> rfl

/-- The possible store states produced by `register`: unchanged, or the
input store with one fresh record appended whose email was not previously
present and which carries no provider linkage. -/
theorem register_state (st : List User) (email password username phone :
    Option String) (fid ts : String) :
    (register st email password username phone fid ts).2 = st ∨
    ∃ nu : User, nu.email = normalizeEmailOpt email ∧
      (∀ prov : Provider, getProviderId prov nu = none) ∧
      st.find? (fun u => u.email == normalizeEmailOpt email) = none ∧
      (register st email password username phone fid ts).2 = st ++ [nu] := by
  simp only [register]
  split
  · exact Or.inl rfl
  split
  · exact Or.inl rfl
  split
  · exact Or.inl rfl
  rename_i heq
  exact Or.inr ⟨_, rfl, fun prov => by cases prov <;> rfl, heq, rfl⟩

/-- The possible store states produced by `forgotPassword`: unchanged, or
the first record matching the normalized email updated with a fresh reset
code and expiry. -/
theorem forgotPassword_state (st : List User) (email : Option String)
    (now : Nat) (r : ℚ) :
    (forgotPassword st email now r).2 = st ∨
    (forgotPassword st email now r).2 =
      updateFirst (fun u => u.email == normalizeEmailOpt email)
        (fun u => { u with
          resetCode := some (natToDecString (genResetCode r))
          resetExpiry := some (now + 15 * 60 * 1000) }) st := by
  simp only [forgotPassword]
  split
  · exact Or.inl rfl
  split
  · exact Or.inl rfl
  · exact Or.inr rfl

/-- The possible store states produced by `resetPassword`: unchanged, or
the first record matching the normalized email updated with the new
password hash and cleared reset fields. -/
theorem resetPassword_state (st : List User) (email code np : Option String)
    (now : Nat) :
    (resetPassword st email code np now).2 = st ∨
    (resetPassword st email code np now).2 =
      updateFirst (fun u => u.email == normalizeEmailOpt email)
        (fun u => { u with
          passwordHash := some (bcryptHash (np.getD "") 12)
          resetCode := none
          resetExpiry := none }) st := by
  simp only [resetPassword]
  split
  · exact Or.inl rfl
  split
  · exact Or.inl rfl
  split
  · exact Or.inl rfl
  split
  · exact Or.inl rfl
  split
  · exact Or.inl rfl
  split
  · exact Or.inl rfl
  · exact Or.inr rfl

/-- The possible store states produced by `resolveProvider`: unchanged
(no-op), a fresh linked record appended (create), or the first matching
record linked in place (link). -/
theorem resolveProvider_state (prov : Provider) (st : List User)
    (p : OAuthProfile) (fid ts : String) :
    (resolveProvider prov st p fid ts).2.1 = st ∨
    (st.find? (provFindPred prov p) = none ∧
     ∃ nu : User, nu.email = candidateEmail p ∧
       getProviderId prov nu = some p.id ∧
       (∀ prov2 : Provider, prov2 ≠ prov → getProviderId prov2 nu = none) ∧
       (resolveProvider prov st p fid ts).2.1 = st ++ [nu]) ∨
    (∃ u : User, st.find? (provFindPred prov p) = some u ∧
       truthyStr (getProviderId prov u) = false ∧
       (resolveProvider prov st p fid ts).2.1 =
         updateFirst (provFindPred prov p) (setProviderId prov p.id) st) := by
  rcases hf : st.find? (provFindPred prov p) with _ | u
  · refine Or.inr (Or.inl ⟨rfl, setProviderId prov p.id
      { id := fid, email := candidateEmail p,
        username := profileUsername prov p, phone := none,
        passwordHash := none, googleId := none, facebookId := none,
        githubId := none, resetCode := none, resetExpiry := none,
        createdAt := ts },
      setProviderId_email prov p.id _, getProviderId_set_self prov p.id _,
      ?_, ?_⟩)
    · intro prov2 h2
      rw [getProviderId_set_ne (Ne.symm h2)]
      cases prov2 <;> rfl
    · simp only [resolveProvider, hf]
  · by_cases ht : truthyStr (getProviderId prov u)
    · refine Or.inl ?_
      simp only [resolveProvider, hf, ht, Bool.not_true, Bool.false_eq_true,
        if_false]
    · refine Or.inr (Or.inr ⟨u, rfl, eq_false_of_ne_true ht, ?_⟩)
      simp only [resolveProvider, hf, eq_false_of_ne_true ht, Bool.not_false,
        if_true]

end MusicConnectZ

namespace MusicConnectZ

/-! ## Claim theorems -/

/-- C9: the credential store's load operation returns the empty collection
when the storage file does not exist (rejection with code ENOENT), and every
read failure with any other cause — a rejection with a different or absent
code, or a JSON parse failure — propagates to the caller as an error rather
than being converted to an empty collection. -/
theorem C9_readUsers_errors :
    readUsers (ReadAttempt.fsError (some "ENOENT")) = Except.ok [] ∧
    (∀ c : Option String, c ≠ some "ENOENT" →
      readUsers (ReadAttempt.fsError c) =
        Except.error (StoreErr.ioErr c)) ∧
    readUsers ReadAttempt.parseFail = Except.error StoreErr.parseErr := by
  refine ⟨rfl, fun c hc => ?_, rfl⟩
  have hb : (c == some "ENOENT") = false := by
    simpa using hc
  simp [readUsers, hb]

/-- Witness for C9 at concrete error codes. -/
theorem C9_readUsers_errors_witness :
    readUsers (ReadAttempt.fsError (some "EACCES")) =
      Except.error (StoreErr.ioErr (some "EACCES")) :=
  C9_readUsers_errors.2.1 (some "EACCES") (by decide)

/-- C10: a provider profile carrying no email normalizes its candidate
email to the empty string, the resolution lookup predicate then matches any
record whose stored email is empty, and concretely: after a Google
resolution of an email-less profile creates a record, a Facebook resolution
of a different email-less profile links its provider id onto that same
record (the store keeps a single record carrying both linkages) instead of
creating a new one. -/
theorem C10_emailless_provider_profiles :
    (∀ p : OAuthProfile, p.emails = [] → candidateEmail p = "") ∧
    (∀ (prov : Provider) (p : OAuthProfile) (u : User),
      p.emails = [] → u.email = "" → provFindPred prov p u = true) ∧
    ((resolveProvider .google []
        { id := "G1", emails := [], displayName := some "Alice",
          givenName := none, familyName := none, username := none }
        "uid1" "t1").2.1.length = 1 ∧
      (resolveProvider .facebook
        (resolveProvider .google []
          { id := "G1", emails := [], displayName := some "Alice",
            givenName := none, familyName := none, username := none }
          "uid1" "t1").2.1
        { id := "F1", emails := [], displayName := none,
          givenName := some "Bob", familyName := some "B", username := none }
        "uid2" "t2").2.1.length = 1 ∧
      (resolveProvider .facebook
        (resolveProvider .google []
          { id := "G1", emails := [], displayName := some "Alice",
            givenName := none, familyName := none, username := none }
          "uid1" "t1").2.1
        { id := "F1", emails := [], displayName := none,
          givenName := some "Bob", familyName := some "B", username := none }
        "uid2" "t2").1.id = "uid1" ∧
      (resolveProvider .facebook
        (resolveProvider .google []
          { id := "G1", emails := [], displayName := some "Alice",
            givenName := none, familyName := none, username := none }
          "uid1" "t1").2.1
        { id := "F1", emails := [], displayName := none,
          givenName := some "Bob", familyName := some "B", username := none }
        "uid2" "t2").1.googleId = some "G1" ∧
      (resolveProvider .facebook
        (resolveProvider .google []
          { id := "G1", emails := [], displayName := some "Alice",
            givenName := none, familyName := none, username := none }
          "uid1" "t1").2.1
        { id := "F1", emails := [], displayName := none,
          givenName := some "Bob", familyName := some "B", username := none }
        "uid2" "t2").1.facebookId = some "F1") := by
  refine ⟨fun p hp => ?_, fun prov p u hp hu => ?_, by decide⟩
  · have hh : p.emails.head? = none := by rw [hp]; rfl
    rw [candidateEmail, hh]
    decide
  · have hce : candidateEmail p = "" := by
      have hh : p.emails.head? = none := by rw [hp]; rfl
      rw [candidateEmail, hh]
      decide
    simp [provFindPred, hu, hce]

/-- Witness for C10 at a concrete profile and record. -/
theorem C10_emailless_provider_profiles_witness :
    candidateEmail
      { id := "G9", emails := [], displayName := none, givenName := none,
        familyName := none, username := none } = "" ∧
    provFindPred .github
      { id := "H9", emails := [], displayName := none, givenName := none,
        familyName := none, username := none }
      { id := "u9", email := "", username := "", phone := none,
        passwordHash := none, googleId := some "G9", facebookId := none,
        githubId := none, resetCode := none, resetExpiry := none,
        createdAt := "t" } = true :=
  ⟨C10_emailless_provider_profiles.1 _ rfl,
   C10_emailless_provider_profiles.2.1 .github _ _ rfl rfl⟩

/-- C1: the spec requires the forgot-password response to have the same
generic shape whether or not the email matches a record and to never expose
the generated reset code.  The handler violates this (server.js line 262):
with a record for "a@x.com" in the store, the response to a forgot-password
request for that email carries a "resetCode" field holding the generated
code, and so differs from the response for an unknown email. -/
theorem C1_reset_code_exposed :
    (forgotPassword [] (some "a@x.com") 1000 (1 / 2)).1 =
      (200, [("ok", JVal.jbool true),
             ("message", JVal.jstr "If account exists, reset code sent")]) ∧
    (forgotPassword
        [{ id := "uidA", email := "a@x.com", username := "",
           phone := some "", passwordHash := some (bcryptHash "longpass1" 12),
           googleId := none, facebookId := none, githubId := none,
           resetCode := none, resetExpiry := none, createdAt := "t1" }]
        (some "a@x.com") 1000 (1 / 2)).1 =
      (200, [("ok", JVal.jbool true),
             ("message", JVal.jstr "If account exists, reset code sent"),
             ("resetCode", JVal.jstr "550000")]) ∧
    ("resetCode", JVal.jstr "550000") ∈
      (forgotPassword
        [{ id := "uidA", email := "a@x.com", username := "",
           phone := some "", passwordHash := some (bcryptHash "longpass1" 12),
           googleId := none, facebookId := none, githubId := none,
           resetCode := none, resetExpiry := none, createdAt := "t1" }]
        (some "a@x.com") 1000 (1 / 2)).1.2 ∧
    (forgotPassword
        [{ id := "uidA", email := "a@x.com", username := "",
           phone := some "", passwordHash := some (bcryptHash "longpass1" 12),
           googleId := none, facebookId := none, githubId := none,
           resetCode := none, resetExpiry := none, createdAt := "t1" }]
        (some "a@x.com") 1000 (1 / 2)).1 ≠
      (forgotPassword [] (some "a@x.com") 1000 (1 / 2)).1 := by
  refine ⟨by decide, ?_, ?_, ?_⟩ <;>
    simp only [forgotPassword, genResetCode_half] <;> decide

/-- C2 counterexample: a reachable store state carrying the same Google
provider id on two distinct records.  Register "a@x.com"; resolve a Google
profile (id "G") carrying email "b@x.com" — this creates a second record
linked to "G"; then resolve a Google profile with the same id "G" but email
"a@x.com" — the lookup finds the password record first (email match) and,
since it lacks a Google linkage, links "G" onto it as well. -/
theorem C2_provider_unique_counterexample :
    ¬ ProviderUnique
      (resolveProvider .google
        (resolveProvider .google
          (register [] (some "a@x.com") (some "longpass1") none none
            "uidA" "t1").2
          { id := "G", emails := ["b@x.com"], displayName := some "DN",
            givenName := none, familyName := none, username := none }
          "uidB" "t2").2.1
        { id := "G", emails := ["a@x.com"], displayName := some "DN",
          givenName := none, familyName := none, username := none }
        "uidC" "t3").2.1 :=
  fun h => absurd (h .google "G") (by decide)

end MusicConnectZ

namespace MusicConnectZ

/-- C3: at most one record per non-empty normalized email, preserved by
every operation that writes the store: register, provider resolution,
reset-code issuance and reset-code consumption. -/
theorem C3_email_unique_preserved :
    (∀ st email password username phone fid ts, EmailUnique st →
      EmailUnique (register st email password username phone fid ts).2) ∧
    (∀ prov st p fid ts, EmailUnique st →
      EmailUnique (resolveProvider prov st p fid ts).2.1) ∧
    (∀ st email now r, EmailUnique st →
      EmailUnique (forgotPassword st email now r).2) ∧
    (∀ st email code np now, EmailUnique st →
      EmailUnique (resetPassword st email code np now).2) := by
  refine ⟨?_, ?_, ?_, ?_⟩
  · intro st email password username phone fid ts h
    rcases register_state st email password username phone fid ts with
      heq | ⟨nu, hemail, _, hfind, heq⟩
    · rw [heq]; exact h
    · rw [heq]
      apply emailUnique_append_new h
      rw [hemail]
      exact countP_eq_zero_of_find?_none hfind
  · intro prov st p fid ts h
    rcases resolveProvider_state prov st p fid ts with
      heq | ⟨hfind, nu, hemail, _, _, heq⟩ | ⟨u, hfind, _, heq⟩
    · rw [heq]; exact h
    · rw [heq]
      apply emailUnique_append_new h
      rw [hemail, List.countP_eq_zero]
      intro a ha
      have hnp := List.find?_eq_none.mp hfind a ha
      simp [provFindPred] at hnp
      simp [hnp.1]
    · rw [heq]
      intro e he
      rw [countP_updateFirst_eq _ _ _
        (fun a => by simp [setProviderId_email])]
      exact h e he
  · intro st email now r h
    rcases forgotPassword_state st email now r with heq | heq
    · rw [heq]; exact h
    · rw [heq]
      intro e he
      rw [countP_updateFirst_eq _ _ _ (fun a => by rfl)]
      exact h e he
  · intro st email code np now h
    rcases resetPassword_state st email code np now with heq | heq
    · rw [heq]; exact h
    · rw [heq]
      intro e he
      rw [countP_updateFirst_eq _ _ _ (fun a => by rfl)]
      exact h e he

/-- Witness for C3: the invariant holds after registering into the empty
store. -/
theorem C3_email_unique_preserved_witness :
    EmailUnique
      (register [] (some "a@x.com") (some "longpass1") none none
        "uidA" "t1").2 :=
  C3_email_unique_preserved.1 [] (some "a@x.com") (some "longpass1")
    none none "uidA" "t1" (fun e _ => by simp)

end MusicConnectZ

namespace MusicConnectZ

/-- C2 (amended): register, reset-code issuance and reset-code consumption
preserve provider-linkage uniqueness unconditionally, and provider
resolution preserves it whenever either no existing record already carries
the presented provider id, or the first record matching the lookup is
already linked for that provider (the no-op case).  In the remaining case —
the presented provider id already on one record while a different,
earlier-positioned record matches the candidate email — resolution links
the id a second time, which is the counterexample to the claim as stated. -/
theorem C2_provider_unique_amended :
    (∀ st email password username phone fid ts, ProviderUnique st →
      ProviderUnique (register st email password username phone fid ts).2) ∧
    (∀ st email now r, ProviderUnique st →
      ProviderUnique (forgotPassword st email now r).2) ∧
    (∀ st email code np now, ProviderUnique st →
      ProviderUnique (resetPassword st email code np now).2) ∧
    (∀ prov st p fid ts, ProviderUnique st →
      (st.countP (fun u => getProviderId prov u == some p.id) = 0 ∨
        (∃ u, st.find? (provFindPred prov p) = some u ∧
          truthyStr (getProviderId prov u) = true)) →
      ProviderUnique (resolveProvider prov st p fid ts).2.1) := by
  refine ⟨?_, ?_, ?_, ?_⟩
  · intro st email password username phone fid ts h
    rcases register_state st email password username phone fid ts with
      heq | ⟨nu, _, hnone, _, heq⟩
    · rw [heq]; exact h
    · rw [heq]
      intro prov2 pid
      rw [countP_append_singleton]
      have hz : (getProviderId prov2 nu == some pid) = false := by
        simp [hnone prov2]
      rw [hz]
      simpa using h prov2 pid
  · intro st email now r h
    rcases forgotPassword_state st email now r with heq | heq
    · rw [heq]; exact h
    · rw [heq]
      intro prov2 pid
      rw [countP_updateFirst_eq _ _ _
        (fun a => by simp [getProviderId_set_reset])]
      exact h prov2 pid
  · intro st email code np now h
    rcases resetPassword_state st email code np now with heq | heq
    · rw [heq]; exact h
    · rw [heq]
      intro prov2 pid
      rw [countP_updateFirst_eq _ _ _
        (fun a => by simp [getProviderId_set_pw])]
      exact h prov2 pid
  · intro prov st p fid ts h hside
    rcases resolveProvider_state prov st p fid ts with
      heq | ⟨hfind, nu, _, hself, hother, heq⟩ | ⟨u, hfind, hnt, heq⟩
    · rw [heq]; exact h
    · rw [heq]
      intro prov2 pid
      rw [countP_append_singleton]
      by_cases hp2 : prov2 = prov
      · subst hp2
        by_cases hpid : pid = p.id
        · subst hpid
          have hzc : st.countP
              (fun u => getProviderId prov2 u == some p.id) = 0 := by
            rw [List.countP_eq_zero]
            intro a ha
            have hnp := List.find?_eq_none.mp hfind a ha
            simp [provFindPred] at hnp
            simp [hnp.2]
          rw [hzc, hself]
          simp
        · have hz : (getProviderId prov2 nu == some pid) = false := by
            rw [hself]
            simp
            exact fun hc => hpid hc.symm
          rw [hz]
          simpa using h prov2 pid
      · have hz : (getProviderId prov2 nu == some pid) = false := by
          simp [hother prov2 hp2]
        rw [hz]
        simpa using h prov2 pid
    · rw [heq]
      have hzero : st.countP
          (fun v => getProviderId prov v == some p.id) = 0 := by
        rcases hside with hz | ⟨u', hf', ht'⟩
        · exact hz
        · rw [hfind] at hf'
          obtain rfl : u' = u := by injection hf' with hh; exact hh.symm
          rw [ht'] at hnt
          cases hnt
      intro prov2 pid
      by_cases hp2 : prov2 = prov
      · subst hp2
        by_cases hpid : pid = p.id
        · subst hpid
          have hle := countP_updateFirst_le (provFindPred prov2 p)
            (setProviderId prov2 p.id)
            (fun v => getProviderId prov2 v == some p.id) st
          rw [hzero] at hle
          omega
        · refine le_trans (countP_updateFirst_mono _ _ _ ?_ st)
            (h prov2 pid)
          intro a ha
          rw [getProviderId_set_self] at ha
          simp at ha
          exact absurd ha.symm hpid
      · refine le_trans (countP_updateFirst_mono _ _ _ ?_ st) (h prov2 pid)
        intro a ha
        rwa [getProviderId_set_ne (fun hh => hp2 hh.symm)] at ha

/-- Witness for C2's amended statement: uniqueness after registering into
the empty store and after a provider resolution against a store with no
carrier of the presented id. -/
theorem C2_provider_unique_amended_witness :
    ProviderUnique
      (register [] (some "b@x.com") (some "longpass1") none none
        "uidB" "t1").2 ∧
    ProviderUnique
      (resolveProvider .google []
        { id := "G2", emails := ["b@x.com"], displayName := none,
          givenName := none, familyName := none, username := none }
        "uidC" "t2").2.1 :=
  ⟨C2_provider_unique_amended.1 [] (some "b@x.com") (some "longpass1")
      none none "uidB" "t1" (fun _ _ => by simp),
   C2_provider_unique_amended.2.2.2 .google []
      { id := "G2", emails := ["b@x.com"], displayName := none,
        givenName := none, familyName := none, username := none }
      "uidC" "t2" (fun _ _ => by simp) (Or.inl (by simp))⟩

end MusicConnectZ

namespace MusicConnectZ

/-- C5: for a password-login request with non-empty email and password, the
outcome when no record matches the normalized email and the outcome when a
record matches but password verification fails are the identical
InvalidCredentials response (401, "Invalid credentials"), with no
distinguishing signal. -/
theorem C5_login_indistinguishable (st1 st2 : List User)
    (e1 e2 pw1 pw2 : Option String) (u : User) (h : BHash)
    (hne1 : normalizeEmailOpt e1 ≠ "") (hpw1 : pw1.getD "" ≠ "")
    (hne2 : normalizeEmailOpt e2 ≠ "") (hpw2 : pw2.getD "" ≠ "")
    (hA : st1.find? (fun v => v.email == normalizeEmailOpt e1) = none)
    (hB : st2.find? (fun v => v.email == normalizeEmailOpt e2) = some u)
    (hh : u.passwordHash = some h)
    (hv : bcryptCompare (pw2.getD "") h = false) :
    login st1 e1 pw1 = (401, [("error", JVal.jstr "Invalid credentials")]) ∧
    login st2 e2 pw2 = (401, [("error", JVal.jstr "Invalid credentials")]) ∧
    login st1 e1 pw1 = login st2 e2 pw2 := by
  have hb1 : (normalizeEmailOpt e1 == "") = false := beq_eq_false_iff_ne.mpr hne1
  have hp1 : (pw1.getD "" == "") = false := beq_eq_false_iff_ne.mpr hpw1
  have hb2 : (normalizeEmailOpt e2 == "") = false := beq_eq_false_iff_ne.mpr hne2
  have hp2 : (pw2.getD "" == "") = false := beq_eq_false_iff_ne.mpr hpw2
  have h1 : login st1 e1 pw1 =
      (401, [("error", JVal.jstr "Invalid credentials")]) := by
    simp [login, hb1, hp1, hA]
  have h2 : login st2 e2 pw2 =
      (401, [("error", JVal.jstr "Invalid credentials")]) := by
    simp [login, hb2, hp2, hB, hh, hv]
  exact ⟨h1, h2, h1.trans h2.symm⟩

/-- Witness for C5: empty store versus a store holding a record for the
same email with a different password. -/
theorem C5_login_indistinguishable_witness :
    login [] (some "a@x.com") (some "wrongpass9") =
      (401, [("error", JVal.jstr "Invalid credentials")]) ∧
    login
      [{ id := "uidA", email := "a@x.com", username := "", phone := some "",
         passwordHash := some (bcryptHash "longpass1" 12), googleId := none,
         facebookId := none, githubId := none, resetCode := none,
         resetExpiry := none, createdAt := "t1" }]
      (some "a@x.com") (some "wrongpass9") =
      (401, [("error", JVal.jstr "Invalid credentials")]) ∧
    login [] (some "a@x.com") (some "wrongpass9") =
      login
        [{ id := "uidA", email := "a@x.com", username := "",
           phone := some "",
           passwordHash := some (bcryptHash "longpass1" 12),
           googleId := none, facebookId := none, githubId := none,
           resetCode := none, resetExpiry := none, createdAt := "t1" }]
        (some "a@x.com") (some "wrongpass9") :=
  C5_login_indistinguishable [] _ (some "a@x.com") (some "a@x.com")
    (some "wrongpass9") (some "wrongpass9") _ (bcryptHash "longpass1" 12)
    (by decide) (by decide) (by decide) (by decide) rfl rfl rfl (by decide)

end MusicConnectZ

namespace MusicConnectZ

/-- C4: for every valid registration (non-empty normalized email, password
of at least 8 characters, email not already taken), registration responds
201 carrying the fresh user id, and a subsequent password login with the
same password and an email that normalizes identically (any letter case)
succeeds with status 200 and returns that same user id. -/
theorem C4_register_then_login (st : List User) (e e2 pw : String)
    (username phone : Option String) (fid ts : String)
    (hne : normalizeEmail e ≠ "")
    (hlen : 8 ≤ pw.length)
    (havail : st.find? (fun u => u.email == normalizeEmail e) = none)
    (hcase : normalizeEmail e2 = normalizeEmail e) :
    (register st (some e) (some pw) username phone fid ts).1.1 = 201 ∧
    respUserId (register st (some e) (some pw) username phone fid ts).1 =
      some fid ∧
    (login (register st (some e) (some pw) username phone fid ts).2
      (some e2) (some pw)).1 = 200 ∧
    respUserId
      (login (register st (some e) (some pw) username phone fid ts).2
        (some e2) (some pw)) = some fid := by
  have hpw : pw ≠ "" := by
    intro hh
    rw [hh] at hlen
    simp at hlen
  have hb : (normalizeEmail e == "") = false := beq_eq_false_iff_ne.mpr hne
  have hp0 : (pw == "") = false := beq_eq_false_iff_ne.mpr hpw
  have hplt : decide (pw.length < 8) = false :=
    decide_eq_false (Nat.not_lt.mpr hlen)
  have hreg : register st (some e) (some pw) username phone fid ts =
      ((201, [("ok", JVal.jbool true),
              ("user", JVal.jobj
                [("id", fid), ("email", normalizeEmail e),
                 ("username",
                   if truthyStr username then (username.getD "").trim
                   else ""),
                 ("phone",
                   if truthyStr phone then (phone.getD "").trim else "")])]),
       st ++ [{ id := fid, email := normalizeEmail e,
                username :=
                  if truthyStr username then (username.getD "").trim else "",
                phone := some
                  (if truthyStr phone then (phone.getD "").trim else ""),
                passwordHash := some (bcryptHash pw 12),
                googleId := none, facebookId := none, githubId := none,
                resetCode := none, resetExpiry := none,
                createdAt := ts }]) := by
    simp only [register, normalizeEmailOpt, Option.getD, hb, hplt, hp0,
      Bool.or_self, Bool.or_false, Bool.false_or, Bool.false_eq_true,
      if_false, havail]
  rw [hreg]
  refine ⟨rfl, rfl, ?_, ?_⟩ <;>
  · simp only [login, normalizeEmailOpt, Option.getD, hcase, hb, hp0,
      Bool.or_self, Bool.or_false, Bool.false_or, Bool.false_eq_true,
      if_false, List.find?_append, havail, Option.none_or, List.find?_cons]
    simp [bcryptCompare, bcryptHash, respUserId, List.lookup]

/-- Witness for C4 at a concrete registration and upper-cased login. -/
theorem C4_register_then_login_witness :
    (register [] (some "a@x.com") (some "longpass1") none none
      "uidA" "t1").1.1 = 201 ∧
    respUserId (register [] (some "a@x.com") (some "longpass1") none none
      "uidA" "t1").1 = some "uidA" ∧
    (login (register [] (some "a@x.com") (some "longpass1") none none
      "uidA" "t1").2 (some "A@X.COM") (some "longpass1")).1 = 200 ∧
    respUserId
      (login (register [] (some "a@x.com") (some "longpass1") none none
        "uidA" "t1").2 (some "A@X.COM") (some "longpass1")) = some "uidA" :=
  C4_register_then_login [] "a@x.com" "A@X.COM" "longpass1" none none
    "uidA" "t1" (by decide) (by decide) rfl (by decide)

end MusicConnectZ

namespace MusicConnectZ

/-- C7: for a reset request with non-empty email and code and a new
password of at least 8 characters whose email matches a record: the
operation fails when the record has no active reset code; fails with the
expiry-specific outcome when the current time exceeds the stored expiry,
regardless of the supplied code; fails when the supplied code does not
string-match; and otherwise succeeds, stores the hash of the new password,
clears the reset fields and persists — after which resubmitting the same
code fails at any later time. -/
theorem C7_reset_code_consumption (st : List User)
    (email code np : Option String) (now : Nat) (u : User)
    (hne : normalizeEmailOpt email ≠ "")
    (hc : code.getD "" ≠ "")
    (hlen : 8 ≤ (np.getD "").length)
    (hfound : st.find? (fun v => v.email == normalizeEmailOpt email) =
      some u) :
    ((truthyStr u.resetCode = false ∨ truthyNat u.resetExpiry = false) →
      resetPassword st email code np now =
        ((400, [("error", JVal.jstr "Invalid or expired reset code")]),
         st)) ∧
    (truthyStr u.resetCode = true → truthyNat u.resetExpiry = true →
      u.resetExpiry.getD 0 < now →
      resetPassword st email code np now =
        ((400, [("error", JVal.jstr "Reset code expired")]), st)) ∧
    (truthyStr u.resetCode = true → truthyNat u.resetExpiry = true →
      now ≤ u.resetExpiry.getD 0 → u.resetCode.getD "" ≠ code.getD "" →
      resetPassword st email code np now =
        ((400, [("error", JVal.jstr "Invalid reset code")]), st)) ∧
    (truthyStr u.resetCode = true → truthyNat u.resetExpiry = true →
      now ≤ u.resetExpiry.getD 0 → u.resetCode.getD "" = code.getD "" →
      ((resetPassword st email code np now).1 =
        (200, [("ok", JVal.jbool true),
               ("message", JVal.jstr "Password reset successful")]) ∧
       (∃ u', (resetPassword st email code np now).2.find?
            (fun v => v.email == normalizeEmailOpt email) = some u' ∧
          u'.passwordHash = some (bcryptHash (np.getD "") 12) ∧
          u'.resetCode = none ∧ u'.resetExpiry = none) ∧
       (∀ now2 : Nat,
         resetPassword (resetPassword st email code np now).2 email code np
           now2 =
           ((400, [("error", JVal.jstr "Invalid or expired reset code")]),
            (resetPassword st email code np now).2)))) := by
  have hb : (normalizeEmailOpt email == "") = false :=
    beq_eq_false_iff_ne.mpr hne
  have hcb : (code.getD "" == "") = false := beq_eq_false_iff_ne.mpr hc
  have hnp : np.getD "" ≠ "" := by
    intro hh
    rw [hh] at hlen
    simp at hlen
  have hnpb : (np.getD "" == "") = false := beq_eq_false_iff_ne.mpr hnp
  have hplt : decide ((np.getD "").length < 8) = false :=
    decide_eq_false (Nat.not_lt.mpr hlen)
  refine ⟨?_, ?_, ?_, ?_⟩
  · rintro (h1 | h1) <;>
      simp [resetPassword, hb, hcb, hnpb, hplt, hfound, h1, hlen]
  · intro h1 h2 h3
    have hdec : decide (now > u.resetExpiry.getD 0) = true :=
      decide_eq_true h3
    simp [resetPassword, hb, hcb, hnpb, hplt, hfound, h1, h2, hdec, hlen]
  · intro h1 h2 h3 h4
    have hdec : decide (now > u.resetExpiry.getD 0) = false :=
      decide_eq_false (Nat.not_lt.mpr h3)
    simp [resetPassword, hb, hcb, hnpb, hplt, hfound, h1, h2, hdec,
      bne_iff_ne, h4, hlen]
  · intro h1 h2 h3 h4
    have hdec : decide (now > u.resetExpiry.getD 0) = false :=
      decide_eq_false (Nat.not_lt.mpr h3)
    have hmain : resetPassword st email code np now =
        ((200, [("ok", JVal.jbool true),
                ("message", JVal.jstr "Password reset successful")]),
         updateFirst (fun v => v.email == normalizeEmailOpt email)
           (fun v => { v with
             passwordHash := some (bcryptHash (np.getD "") 12)
             resetCode := none
             resetExpiry := none }) st) := by
      simp [resetPassword, hb, hcb, hnpb, hplt, hfound, h1, h2, hdec,
        bne_iff_ne, h4, hlen]
    have hpu := List.find?_some hfound
    have hfu : ((fun v => v.email == normalizeEmailOpt email)
        ({ u with
          passwordHash := some (bcryptHash (np.getD "") 12)
          resetCode := none
          resetExpiry := none } : User)) = true := hpu
    have hfind2 : (updateFirst
        (fun v => v.email == normalizeEmailOpt email)
        (fun v => { v with
          passwordHash := some (bcryptHash (np.getD "") 12)
          resetCode := none
          resetExpiry := none }) st).find?
        (fun v => v.email == normalizeEmailOpt email) =
        some { u with
          passwordHash := some (bcryptHash (np.getD "") 12)
          resetCode := none
          resetExpiry := none } :=
      find?_updateFirst hfound hfu
    rw [hmain]
    refine ⟨rfl, ⟨_, hfind2, rfl, rfl, rfl⟩, fun now2 => ?_⟩
    simp [resetPassword, hb, hcb, hnpb, hplt, hfind2, truthyStr, hlen]

/-- Witness for C7: a concrete store with an active code "550000"; the
reset succeeds and resubmitting the same code later fails. -/
theorem C7_reset_code_consumption_witness :
    (resetPassword
      [{ id := "uidA", email := "a@x.com", username := "", phone := some "",
         passwordHash := some (bcryptHash "longpass1" 12), googleId := none,
         facebookId := none, githubId := none, resetCode := some "550000",
         resetExpiry := some 901000, createdAt := "t1" }]
      (some "a@x.com") (some "550000") (some "newpass99") 1000).1 =
      (200, [("ok", JVal.jbool true),
             ("message", JVal.jstr "Password reset successful")]) ∧
    resetPassword
      (resetPassword
        [{ id := "uidA", email := "a@x.com", username := "",
           phone := some "",
           passwordHash := some (bcryptHash "longpass1" 12),
           googleId := none, facebookId := none, githubId := none,
           resetCode := some "550000", resetExpiry := some 901000,
           createdAt := "t1" }]
        (some "a@x.com") (some "550000") (some "newpass99") 1000).2
      (some "a@x.com") (some "550000") (some "newpass99") 2000 =
      ((400, [("error", JVal.jstr "Invalid or expired reset code")]),
       (resetPassword
        [{ id := "uidA", email := "a@x.com", username := "",
           phone := some "",
           passwordHash := some (bcryptHash "longpass1" 12),
           googleId := none, facebookId := none, githubId := none,
           resetCode := some "550000", resetExpiry := some 901000,
           createdAt := "t1" }]
        (some "a@x.com") (some "550000") (some "newpass99") 1000).2) := by
  have h := C7_reset_code_consumption
    [{ id := "uidA", email := "a@x.com", username := "", phone := some "",
       passwordHash := some (bcryptHash "longpass1" 12), googleId := none,
       facebookId := none, githubId := none, resetCode := some "550000",
       resetExpiry := some 901000, createdAt := "t1" }]
    (some "a@x.com") (some "550000") (some "newpass99") 1000
    { id := "uidA", email := "a@x.com", username := "", phone := some "",
      passwordHash := some (bcryptHash "longpass1" 12), googleId := none,
      facebookId := none, githubId := none, resetCode := some "550000",
      resetExpiry := some 901000, createdAt := "t1" }
    (by decide) (by decide) (by decide) (by decide)
  have hd := h.2.2.2 (by decide) (by decide) (by decide) (by decide)
  exact ⟨hd.1, hd.2.2 2000⟩

end MusicConnectZ

namespace MusicConnectZ

theorem decDigitsAux_eq_digits : ∀ (fuel n : Nat), n ≤ fuel →
    decDigitsAux fuel n = Nat.digits 10 n
  | fuel, 0, _ => by cases fuel <;> simp [decDigitsAux]
  | 0, n + 1, h => absurd h (by omega)
  | fuel + 1, n + 1, h => by
    rw [decDigitsAux,
      Nat.digits_def' (by norm_num : (1 : ℕ) < 10) (Nat.succ_pos n)]
    congr 1
    have hlt : (n + 1) / 10 < n + 1 :=
      Nat.div_lt_self (Nat.succ_pos n) (by norm_num)
    exact decDigitsAux_eq_digits fuel ((n + 1) / 10) (by omega)

theorem decDigits_eq_digits (n : Nat) : decDigits n = Nat.digits 10 n :=
  decDigitsAux_eq_digits n n le_rfl

theorem natToDecString_length_six {n : Nat} (h1 : 100000 ≤ n)
    (h2 : n ≤ 999999) : (natToDecString n).length = 6 := by
  have hlog : Nat.log 10 n = 5 := by
    apply Nat.log_eq_of_pow_le_of_lt_pow
    · norm_num
      omega
    · norm_num
      omega
  show (String.mk ((decDigits n).reverse.map
    (fun d => Char.ofNat (48 + d)))).length = 6
  have : (String.mk ((decDigits n).reverse.map
      (fun d => Char.ofNat (48 + d)))).length =
      ((decDigits n).reverse.map (fun d => Char.ofNat (48 + d))).length :=
    rfl
  rw [this, List.length_map, List.length_reverse, decDigits_eq_digits,
    Nat.digits_len 10 n (by norm_num) (by omega), hlog]

theorem natToDecString_ascii_digits {n : Nat} :
    ∀ c ∈ (natToDecString n).data, 48 ≤ c.toNat ∧ c.toNat ≤ 57 := by
  intro c hc
  have hc' : c ∈ (decDigits n).reverse.map (fun d => Char.ofNat (48 + d)) :=
    hc
  obtain ⟨d, hd, rfl⟩ := List.mem_map.mp hc'
  have hd10 : d < 10 := by
    apply Nat.digits_lt_base (by norm_num : (1 : ℕ) < 10)
    rw [← decDigits_eq_digits]
    exact List.mem_reverse.mp hd
  interval_cases d <;> exact ⟨by decide, by decide⟩

theorem genResetCode_range (r : ℚ) (h0 : 0 ≤ r) (h1 : r < 1) :
    100000 ≤ genResetCode r ∧ genResetCode r ≤ 999999 := by
  have hb : Rat.floor (100000 + r * 900000) =
      ⌊(100000 : ℚ) + r * 900000⌋ := ratFloor_eq_intFloor _
  have hlo : (100000 : ℤ) ≤ ⌊(100000 : ℚ) + r * 900000⌋ := by
    rw [Int.le_floor]
    push_cast
    nlinarith
  have hhi : ⌊(100000 : ℚ) + r * 900000⌋ < 1000000 := by
    rw [Int.floor_lt]
    push_cast
    nlinarith
  rw [genResetCode, hb]
  omega

end MusicConnectZ

namespace MusicConnectZ

/-- C8: when a forgot-password request matches a record, the generated
reset code is an integer in 100000–999999 whose string form has exactly 6
characters, all ASCII digits, and it is stored on the matched record
together with an expiry exactly 15 minutes (900000 ms) after issuance. -/
theorem C8_reset_code_format (st : List User) (email : Option String)
    (now : Nat) (r : ℚ) (u : User)
    (h0 : 0 ≤ r) (h1 : r < 1)
    (hne : normalizeEmailOpt email ≠ "")
    (hfound : st.find? (fun v => v.email == normalizeEmailOpt email) =
      some u) :
    100000 ≤ genResetCode r ∧ genResetCode r ≤ 999999 ∧
    (natToDecString (genResetCode r)).length = 6 ∧
    (∀ c ∈ (natToDecString (genResetCode r)).data,
      48 ≤ c.toNat ∧ c.toNat ≤ 57) ∧
    ∃ u' ∈ (forgotPassword st email now r).2,
      u'.resetCode = some (natToDecString (genResetCode r)) ∧
      u'.resetExpiry = some (now + 15 * 60 * 1000) := by
  obtain ⟨hlo, hhi⟩ := genResetCode_range r h0 h1
  refine ⟨hlo, hhi, natToDecString_length_six hlo hhi,
    natToDecString_ascii_digits, ?_⟩
  have hb : (normalizeEmailOpt email == "") = false :=
    beq_eq_false_iff_ne.mpr hne
  have hstate : (forgotPassword st email now r).2 =
      updateFirst (fun v => v.email == normalizeEmailOpt email)
        (fun v => { v with
          resetCode := some (natToDecString (genResetCode r))
          resetExpiry := some (now + 15 * 60 * 1000) }) st := by
    simp [forgotPassword, hb, hfound]
  have hpu := List.find?_some hfound
  have hfind2 : (updateFirst (fun v => v.email == normalizeEmailOpt email)
      (fun v => { v with
        resetCode := some (natToDecString (genResetCode r))
        resetExpiry := some (now + 15 * 60 * 1000) }) st).find?
      (fun v => v.email == normalizeEmailOpt email) =
      some { u with
        resetCode := some (natToDecString (genResetCode r))
        resetExpiry := some (now + 15 * 60 * 1000) } :=
    find?_updateFirst hfound hpu
  rw [hstate]
  exact ⟨_, List.mem_of_find?_eq_some hfind2, rfl, rfl⟩

/-- Witness for C8 at a concrete store and random draw 1/2. -/
theorem C8_reset_code_format_witness :
    100000 ≤ genResetCode (1 / 2) ∧ genResetCode (1 / 2) ≤ 999999 ∧
    (natToDecString (genResetCode (1 / 2))).length = 6 ∧
    (∀ c ∈ (natToDecString (genResetCode (1 / 2))).data,
      48 ≤ c.toNat ∧ c.toNat ≤ 57) ∧
    ∃ u' ∈ (forgotPassword
        [{ id := "uidA", email := "a@x.com", username := "",
           phone := some "",
           passwordHash := some (bcryptHash "longpass1" 12),
           googleId := none, facebookId := none, githubId := none,
           resetCode := none, resetExpiry := none,
           createdAt := "t1" }] (some "a@x.com") 1000 (1 / 2)).2,
      u'.resetCode = some (natToDecString (genResetCode (1 / 2))) ∧
      u'.resetExpiry = some (1000 + 15 * 60 * 1000) :=
  C8_reset_code_format
    [{ id := "uidA", email := "a@x.com", username := "", phone := some "",
       passwordHash := some (bcryptHash "longpass1" 12), googleId := none,
       facebookId := none, githubId := none, resetCode := none,
       resetExpiry := none, createdAt := "t1" }]
    (some "a@x.com") 1000 (1 / 2)
    { id := "uidA", email := "a@x.com", username := "", phone := some "",
      passwordHash := some (bcryptHash "longpass1" 12), googleId := none,
      facebookId := none, githubId := none, resetCode := none,
      resetExpiry := none, createdAt := "t1" }
    (by norm_num) (by norm_num) (by decide) (by decide)

end MusicConnectZ

namespace MusicConnectZ

/-- C6: provider resolution performs at most one persisted write per call:
it creates a fresh linked record when nothing matches, links the provider
id onto the first matching record when that record lacks the provider's
linkage (adding no new record), and writes nothing when the matched record
already carries a linkage for that provider; consequently a second
resolution of the same verified profile (non-empty provider id) writes
nothing and leaves the store unchanged. -/
theorem C6_resolve_provider_writes (prov : Provider) (st : List User)
    (p : OAuthProfile) (fid ts fid2 ts2 : String) (hpid : p.id ≠ "") :
    (st.find? (provFindPred prov p) = none →
      ((resolveProvider prov st p fid ts).2.2 = true ∧
       (resolveProvider prov st p fid ts).2.1 =
         st ++ [(resolveProvider prov st p fid ts).1] ∧
       getProviderId prov (resolveProvider prov st p fid ts).1 =
         some p.id ∧
       (resolveProvider prov st p fid ts).1.email = candidateEmail p ∧
       (resolveProvider prov st p fid ts).1.id = fid)) ∧
    (∀ u, st.find? (provFindPred prov p) = some u →
      truthyStr (getProviderId prov u) = false →
      ((resolveProvider prov st p fid ts).2.2 = true ∧
       (resolveProvider prov st p fid ts).2.1 =
         updateFirst (provFindPred prov p) (setProviderId prov p.id) st ∧
       (resolveProvider prov st p fid ts).2.1.length = st.length ∧
       (resolveProvider prov st p fid ts).1 = setProviderId prov p.id u)) ∧
    (∀ u, st.find? (provFindPred prov p) = some u →
      truthyStr (getProviderId prov u) = true →
      ((resolveProvider prov st p fid ts).2.2 = false ∧
       (resolveProvider prov st p fid ts).2.1 = st ∧
       (resolveProvider prov st p fid ts).1 = u)) ∧
    ((resolveProvider prov (resolveProvider prov st p fid ts).2.1 p fid2
        ts2).2.2 = false ∧
     (resolveProvider prov (resolveProvider prov st p fid ts).2.1 p fid2
        ts2).2.1 = (resolveProvider prov st p fid ts).2.1 ∧
     (resolveProvider prov (resolveProvider prov st p fid ts).2.1 p fid2
        ts2).1 = (resolveProvider prov st p fid ts).1) := by
  have hpt : truthyStr (some p.id) = true := by simp [truthyStr, hpid]
  refine ⟨?_, ?_, ?_, ?_⟩
  · intro hf
    simp [resolveProvider, hf, getProviderId_set_self, setProviderId_email,
      setProviderId_id]
  · intro u hf ht
    simp [resolveProvider, hf, ht, length_updateFirst]
  · intro u hf ht
    simp [resolveProvider, hf, ht]
  · rcases hf : st.find? (provFindPred prov p) with _ | u
    · have h1 : resolveProvider prov st p fid ts =
          (setProviderId prov p.id
            { id := fid, email := candidateEmail p,
              username := profileUsername prov p, phone := none,
              passwordHash := none, googleId := none, facebookId := none,
              githubId := none, resetCode := none, resetExpiry := none,
              createdAt := ts },
           st ++ [setProviderId prov p.id
            { id := fid, email := candidateEmail p,
              username := profileUsername prov p, phone := none,
              passwordHash := none, googleId := none, facebookId := none,
              githubId := none, resetCode := none, resetExpiry := none,
              createdAt := ts }], true) := by
        simp [resolveProvider, hf]
      simp only [h1]
      simp [resolveProvider, List.find?_append, hf, provFindPred,
        setProviderId_email, getProviderId_set_self, hpt]
    · by_cases ht : truthyStr (getProviderId prov u)
      · simp [resolveProvider, hf, ht]
      · have hpred := List.find?_some hf
        simp only [provFindPred, Bool.or_eq_true, beq_iff_eq] at hpred
        have hueq : u.email = candidateEmail p := by
          rcases hpred with h | h
          · exact h
          · rw [h] at ht
            rw [hpt] at ht
            exact absurd rfl ht
        have ht' : truthyStr (getProviderId prov u) = false :=
          eq_false_of_ne_true ht
        have h1 : resolveProvider prov st p fid ts =
            (setProviderId prov p.id u,
             updateFirst (provFindPred prov p) (setProviderId prov p.id) st,
             true) := by
          simp [resolveProvider, hf, ht']
        have hfu : provFindPred prov p (setProviderId prov p.id u) =
            true := by
          simp [provFindPred, setProviderId_email, hueq]
        have hfind2 : (updateFirst (provFindPred prov p)
            (setProviderId prov p.id) st).find? (provFindPred prov p) =
            some (setProviderId prov p.id u) :=
          find?_updateFirst hf hfu
        have ht2 : truthyStr
            (getProviderId prov (setProviderId prov p.id u)) = true := by
          rw [getProviderId_set_self]
          exact hpt
        simp only [h1]
        simp [resolveProvider, hfind2, ht2]

/-- Witness for C6: resolving a concrete Google profile against the empty
store creates one linked record, and resolving it again writes nothing. -/
theorem C6_resolve_provider_writes_witness :
    ((resolveProvider .google []
        { id := "G1", emails := ["a@x.com"], displayName := some "DN",
          givenName := none, familyName := none, username := none }
        "uid1" "t1").2.2 = true ∧
     (resolveProvider .google
        (resolveProvider .google []
          { id := "G1", emails := ["a@x.com"], displayName := some "DN",
            givenName := none, familyName := none, username := none }
          "uid1" "t1").2.1
        { id := "G1", emails := ["a@x.com"], displayName := some "DN",
          givenName := none, familyName := none, username := none }
        "uid2" "t2").2.2 = false ∧
     (resolveProvider .google
        (resolveProvider .google []
          { id := "G1", emails := ["a@x.com"], displayName := some "DN",
            givenName := none, familyName := none, username := none }
          "uid1" "t1").2.1
        { id := "G1", emails := ["a@x.com"], displayName := some "DN",
          givenName := none, familyName := none, username := none }
        "uid2" "t2").2.1 =
       (resolveProvider .google []
          { id := "G1", emails := ["a@x.com"], displayName := some "DN",
            givenName := none, familyName := none, username := none }
          "uid1" "t1").2.1) := by
  have h := C6_resolve_provider_writes .google []
    { id := "G1", emails := ["a@x.com"], displayName := some "DN",
      givenName := none, familyName := none, username := none }
    "uid1" "t1" "uid2" "t2" (by decide)
  exact ⟨(h.1 rfl).1, h.2.2.2.1, h.2.2.2.2.1⟩

end MusicConnectZ
